import Mathlib

/-!
Shallow embedding of `janet.go` from meinside/janet-go: the value codec
(`janetValueToString`, `parseJanetValueToGo`), the worker request handlers
(`handleExecRequest`, `handleParseRequest`), the worker serving loop, the
`Execute` / `ParseToValue` call protocol with its two cancellable selects,
and the shared-singleton lifecycle (`SharedVM` / `Close`).
-/

namespace JanetGo

/-- Carrier for the C `double` payload of a Janet number.  The Go wrapper
never computes with numbers — `float64(C.janet_unwrap_number(v))` is an
identity move of the 64-bit payload — so any carrier with decidable
equality is a faithful model of that payload. -/
abbrev JDouble := Rat

/-- A Janet dynamic value as seen through the C API used by `janet.go`.
`keyword s` stores the keyword's name as `janet_unwrap_keyword` returns it,
without the leading colon.  `table`/`struct` carry the underlying
open-addressed key/value slot array: a slot with a `jnil` key is an empty
slot (the table branch of `parseJanetValueToGo` walks the whole
`capacity`-sized array; the struct branch walks only the first
`janet_struct_len` positions of it).  `abstract` stands for every other
dynamic type (function, fiber, buffer, ...), which `janet.go` only ever
passes to the runtime's generic stringifier. -/
inductive JanetValue where
  | jnil
  | boolean (b : Bool)
  | number (n : JDouble)
  | string (s : String)
  | symbol (s : String)
  | keyword (s : String)
  | tuple (xs : List JanetValue)
  | array (xs : List JanetValue)
  | table (slots : List (JanetValue × JanetValue))
  | struct (slots : List (JanetValue × JanetValue))
  | abstract (tag : Nat)

/-- A native Go value produced by `parseJanetValueToGo` (`any` in Go):
nil, bool, float64, string, `[]any`, or `map[any]any`.  The Go map is
modelled as its key/value entries in insertion order, later writes
overwriting earlier ones. -/
inductive GoValue where
  | gnull
  | gbool (b : Bool)
  | gnumber (n : JDouble)
  | gstring (s : String)
  | glist (xs : List GoValue)
  | gmap (entries : List (GoValue × GoValue))

mutual

/-- Structural equality on native Go values, modelling Go's `==` on the
`any` keys of a `map[any]any`. -/
def gbeq : GoValue → GoValue → Bool
  | .gnull, .gnull => true
  | .gbool a, .gbool b => a == b
  | .gnumber a, .gnumber b => a == b
  | .gstring a, .gstring b => a == b
  | .glist xs, .glist ys => gbeqList xs ys
  | .gmap xs, .gmap ys => gbeqEntries xs ys
  | _, _ => false

/-- Elementwise `gbeq` on lists of Go values. -/
def gbeqList : List GoValue → List GoValue → Bool
  | [], [] => true
  | x :: xs, y :: ys => gbeq x y && gbeqList xs ys
  | _, _ => false

/-- Pairwise `gbeq` on map entries. -/
def gbeqEntries : List (GoValue × GoValue) → List (GoValue × GoValue) → Bool
  | [], [] => true
  | (k, v) :: xs, (k', v') :: ys => gbeq k k' && (gbeq v v' && gbeqEntries xs ys)
  | _, _ => false

end

/-- `JANET_SIGNAL_OK`, the completion signal of a successful
`janet_dostring` evaluation (the first value of the C `JanetSignal`
enumeration). -/
def JANET_SIGNAL_OK : Nat := 0

mutual

/-- `janetValueToString` from `janet.go`: the textual rendering of a Janet
value.  `toStringB` models the runtime's own generic stringifier
`janet_to_string_b` (part of the amalgamated Janet runtime, not of the Go
wrapper), which the code invokes for numbers and for every dynamic type
not matched by an explicit case — including arrays, tables, structs and
abstract values, which all reach the `default` branch. -/
def janetValueToString (toStringB : JanetValue → String) : JanetValue → String
  | .jnil => "nil"
  | .boolean b => if b then "true" else "false"
  | .number n => toStringB (.number n)
  | .string s => s
  | .symbol s => s
  | .keyword s => ":" ++ s
  | .tuple xs => "(" ++ renderTupleElems toStringB xs ++ ")"
  | .array xs => toStringB (.array xs)
  | .table slots => toStringB (.table slots)
  | .struct slots => toStringB (.struct slots)
  | .abstract t => toStringB (.abstract t)

/-- The `JANET_TUPLE` loop of `janetValueToString`: append the rendering
of each element, inserting a single space after every element except the
last (`if i < length-1`). -/
def renderTupleElems (toStringB : JanetValue → String) : List JanetValue → String
  | [] => ""
  | [x] => janetValueToString toStringB x
  | x :: y :: xs =>
      janetValueToString toStringB x ++ " " ++ renderTupleElems toStringB (y :: xs)

end

/-- Whether a native Go value can be hashed as a `map[any]any` key: an
interface key whose dynamic type is `[]any` or `map[any]any` cannot (the
Go runtime panics with "hash of unhashable type"); nil, booleans,
float64s and strings can. -/
def hashableGoKey : GoValue → Bool
  | .glist _ => false
  | .gmap _ => false
  | _ => true

/-- The update a successful `result[key] = val` performs on the model of
a Go `map[any]any`: replace the value of an existing `gbeq`-equal key,
otherwise append the new entry. -/
def mapReplace (k v : GoValue) : List (GoValue × GoValue) → List (GoValue × GoValue)
  | [] => [(k, v)]
  | (k', v') :: rest =>
      if gbeq k' k then mapReplace k v rest else (k', v') :: mapReplace k v rest

/-- `result[key] = val` on a Go `map[any]any`: the runtime first hashes
the key, panicking (`none`) when its dynamic type is unhashable
(`[]any` or `map[any]any`, as produced by tuple/array/table/struct keys);
with a hashable key the update succeeds. -/
def mapInsert (k v : GoValue) (es : List (GoValue × GoValue)) :
    Option (List (GoValue × GoValue)) :=
  if hashableGoKey k then some (mapReplace k v es) else none

/-- `janet_checktype(v, JANET_NIL)` as a boolean: is the value nil? -/
def isJanetNil : JanetValue → Bool
  | .jnil => true
  | _ => false

/-- `janet_struct_len` (the helper defined in the cgo preamble of
`janet.go`): the number of actual entries of a struct, i.e. the number of
slots of its key/value array whose key is not nil. -/
def janet_struct_len (slots : List (JanetValue × JanetValue)) : Nat :=
  (slots.filter (fun s => !isJanetNil s.1)).length

/-- Taking a prefix of a list never increases its `sizeOf` (termination
helper for the struct branch of `parseJanetValueToGo`). -/
theorem sizeOf_take_le {α : Type} [SizeOf α] (n : Nat) (xs : List α) :
    sizeOf (List.take n xs) ≤ sizeOf xs := by
  induction xs generalizing n with
  | nil => simp [List.take]
  | cons x xs ih =>
      cases n with
      | zero => simp only [List.take, List.nil.sizeOf_spec, List.cons.sizeOf_spec]; omega
      | succ m =>
          simp only [List.take, List.cons.sizeOf_spec]
          have := ih m
          omega

mutual

/-- `parseJanetValueToGo` from `janet.go`: convert a Janet value to a
native Go value.  Tuples and arrays map their elements in order; the
table branch walks the whole capacity-sized slot array and the struct
branch only the first `janet_struct_len` positions of its slot array,
each skipping slots whose key is nil; every other type falls back to the
textual rendering.  The result is `none` when the conversion panics the
goroutine: `result[key] = val` on a `map[any]any` with an unhashable key
(a `[]any` or `map[any]any` converted from a tuple/array/table/struct
key) aborts the whole call, and a panic inside a nested conversion
propagates outward. -/
def parseJanetValueToGo (toStringB : JanetValue → String) : JanetValue → Option GoValue
  | .jnil => some .gnull
  | .boolean b => some (.gbool b)
  | .number n => some (.gnumber n)
  | .string s => some (.gstring s)
  | .symbol s => some (.gstring s)
  | .keyword s => some (.gstring (":" ++ s))
  | .tuple xs =>
      match parseGoList toStringB xs with
      | none => none
      | some gs => some (.glist gs)
  | .array xs =>
      match parseGoList toStringB xs with
      | none => none
      | some gs => some (.glist gs)
  | .table slots =>
      match parseGoSlots toStringB slots [] with
      | none => none
      | some es => some (.gmap es)
  | .struct slots =>
      match parseGoSlots toStringB (slots.take (janet_struct_len slots)) [] with
      | none => none
      | some es => some (.gmap es)
  | .abstract t => some (.gstring (janetValueToString toStringB (.abstract t)))
termination_by v => sizeOf v
decreasing_by
  all_goals simp_wf
  all_goals
    first
      | omega
      | (have h := sizeOf_take_le (janet_struct_len slots) slots; omega)

/-- The element loop shared by the `JANET_TUPLE, JANET_ARRAY` branch of
`parseJanetValueToGo`; `none` propagates a panic from an element's
conversion. -/
def parseGoList (toStringB : JanetValue → String) : List JanetValue → Option (List GoValue)
  | [] => some []
  | x :: xs =>
      match parseJanetValueToGo toStringB x with
      | none => none
      | some g =>
          match parseGoList toStringB xs with
          | none => none
          | some gs => some (g :: gs)
termination_by xs => sizeOf xs
decreasing_by
  all_goals simp_wf <;> omega

/-- The slot loop shared by the `JANET_TABLE` and `JANET_STRUCT` branches
of `parseJanetValueToGo`: walk the slots in order, skipping those whose
key is nil (`janet_checktype(currentKV.key, JANET_NIL) == 0` fails) and
performing `result[key] = val` for the rest — converting the key, then
the value, then assigning, any of which may panic (`none`). -/
def parseGoSlots (toStringB : JanetValue → String) :
    List (JanetValue × JanetValue) → List (GoValue × GoValue) →
      Option (List (GoValue × GoValue))
  | [], acc => some acc
  | (k, v) :: rest, acc =>
      if isJanetNil k then parseGoSlots toStringB rest acc
      else
        match parseJanetValueToGo toStringB k with
        | none => none
        | some gk =>
            match parseJanetValueToGo toStringB v with
            | none => none
            | some gv =>
                match mapInsert gk gv acc with
                | none => none
                | some acc' => parseGoSlots toStringB rest acc'
termination_by slots _ => sizeOf slots
decreasing_by
  all_goals simp_wf <;> omega

end

/-- A Go `error` as used by `janet.go`: either the error identity handed
back by the caller's context (`ctx.Err()`, e.g. `context.DeadlineExceeded`)
or an error freshly made with `errors.New(msg)`. -/
inductive GoError where
  | ctxError (msg : String)
  | newError (msg : String)
  deriving DecidableEq

/-- `vmExecResponse`: the result the worker sends back on the per-request
reply channel of an execution request. -/
structure VmExecResponse where
  evaluated : String
  stdout : String
  stderr : String
  err : Option GoError
  deriving DecidableEq

/-- `vmParseResponse`: the result the worker sends back for a parse
request; `value` models the Go `any` field, whose zero value `nil` is
`gnull`. -/
structure VmParseResponse where
  value : GoValue
  err : Option GoError

/-- The environment one execution request meets inside the worker: the
outcomes of the two `pipe` calls (`(read fd, write fd)` on success), the
completion signal and result value of `janet_dostring`, and the bytes the
drain loops read from the two pipes. -/
structure ExecEnv where
  expression : String
  stdoutPipe : Option (Nat × Nat)
  stderrPipe : Option (Nat × Nat)
  signal : Nat
  result : JanetValue
  capturedOut : String
  capturedErr : String

/-- What `handleExecRequest` does, in order: descriptor opens/closes of
the two pipes, the `janet_dostring` call, and sends on the reply
channel. -/
inductive ExecEvent where
  | openFd (fd : Nat)
  | closeFd (fd : Nat)
  | runEval
  | send (r : VmExecResponse)

/-- `handleExecRequest` from `janet.go` as the trace of its effects.
If creating the stdout pipe fails, send an error response and return.
If creating the stderr pipe fails, close both descriptors of the stdout
pipe, send an error response and return.  Otherwise redirect the streams
(each redirect helper closes the pipe's write end after `dup2`), run
`janet_dostring`, restore the streams, drain and close the read ends, and
send the response: on a non-`JANET_SIGNAL_OK` signal an error response
carrying the runtime's rendering (`janet_to_string_b`) of the result
value plus the captured output, otherwise a success response. -/
def handleExecRequest (toStringB : JanetValue → String) (env : ExecEnv) : List ExecEvent :=
  match env.stdoutPipe with
  | none =>
      [.send { evaluated := "", stdout := "", stderr := "",
               err := some (.newError "failed to create stdout pipe") }]
  | some (r1, w1) =>
      match env.stderrPipe with
      | none =>
          [.openFd r1, .openFd w1, .closeFd r1, .closeFd w1,
           .send { evaluated := "", stdout := "", stderr := "",
                   err := some (.newError "failed to create stderr pipe") }]
      | some (r2, w2) =>
          let resp : VmExecResponse :=
            if env.signal ≠ JANET_SIGNAL_OK then
              { evaluated := "", stdout := env.capturedOut, stderr := env.capturedErr,
                err := some (.newError (toStringB env.result)) }
            else
              { evaluated := janetValueToString toStringB env.result,
                stdout := env.capturedOut, stderr := env.capturedErr, err := none }
          [.openFd r1, .openFd w1, .openFd r2, .openFd w2,
           .closeFd w1, .closeFd w2, .runEval, .closeFd r1, .closeFd r2,
           .send resp]

/-- The responses sent on the reply channel during an execution trace. -/
def execSends : List ExecEvent → List VmExecResponse
  | [] => []
  | .send r :: tr => r :: execSends tr
  | _ :: tr => execSends tr

/-- Did the trace run `janet_dostring`? -/
def ranEval (tr : List ExecEvent) : Bool :=
  tr.any (fun e => match e with | .runEval => true | _ => false)

/-- The file descriptors opened during a trace, in order. -/
def fdOpens : List ExecEvent → List Nat
  | [] => []
  | .openFd n :: tr => n :: fdOpens tr
  | _ :: tr => fdOpens tr

/-- The file descriptors closed during a trace, in order. -/
def fdCloses : List ExecEvent → List Nat
  | [] => []
  | .closeFd n :: tr => n :: fdCloses tr
  | _ :: tr => fdCloses tr

/-- The prefix of a trace strictly before its first reply-channel send. -/
def eventsBeforeSend (tr : List ExecEvent) : List ExecEvent :=
  tr.takeWhile (fun e => match e with | .send _ => false | _ => true)

/-- The environment a parse request meets inside the worker: the
completion signal and result value of `janet_dostring`. -/
structure ParseEnv where
  expression : String
  signal : Nat
  result : JanetValue

/-- What `handleParseRequest` does: sends on the reply channel, or a
runtime panic ("hash of unhashable type") that unwinds the goroutine —
`janet.go` has no `recover`, so a panic sends nothing and kills the
worker (and with it the process). -/
inductive ParseEvent where
  | send (r : VmParseResponse)
  | panicked

/-- `handleParseRequest` from `janet.go` as the trace of its effects: run
`janet_dostring`; on a non-`JANET_SIGNAL_OK` signal send a response whose
error is the runtime's rendering of the result value (its `value` field is
left at the Go zero value `nil`); otherwise convert the result and send
it — unless the conversion panics on an unhashable map key, in which case
no response is ever sent. -/
def handleParseRequest (toStringB : JanetValue → String) (p : ParseEnv) : List ParseEvent :=
  if p.signal ≠ JANET_SIGNAL_OK then
    [.send { value := .gnull, err := some (.newError (toStringB p.result)) }]
  else
    match parseJanetValueToGo toStringB p.result with
    | none => [.panicked]
    | some g => [.send { value := g, err := none }]

/-- The responses sent during a parse trace. -/
def parseSends : List ParseEvent → List VmParseResponse
  | [] => []
  | .send r :: tr => r :: parseSends tr
  | .panicked :: tr => parseSends tr

/-- Did the parse trace end in a goroutine panic? -/
def parsePanicked (tr : List ParseEvent) : Bool :=
  tr.any (fun e => match e with | .panicked => true | _ => false)

/-- One arrival at the worker's `select`: an execution request, a parse
request, or the closing of the shutdown channel. -/
inductive WorkerEvent where
  | execReq (e : ExecEnv)
  | parseReq (p : ParseEnv)
  | shutdown

/-- One handled request of the serving loop. -/
inductive WorkerOutput where
  | execTrace (tr : List ExecEvent)
  | parseTrace (tr : List ParseEvent)

/-- The worker's serving loop (`for { select { ... } }` in `SharedVM`):
handle each arriving request to completion with the matching handler and
loop, until the shutdown signal arrives.  An execution request always
returns to the loop (`handleExecRequest` cannot panic); a parse request
whose conversion panics unwinds the goroutine, so the loop never serves
another request. -/
def workerLoop (toStringB : JanetValue → String) : List WorkerEvent → List WorkerOutput
  | [] => []
  | .execReq e :: rest => .execTrace (handleExecRequest toStringB e) :: workerLoop toStringB rest
  | .parseReq p :: rest =>
      if parsePanicked (handleParseRequest toStringB p) then
        [.parseTrace (handleParseRequest toStringB p)]
      else
        .parseTrace (handleParseRequest toStringB p) :: workerLoop toStringB rest
  | .shutdown :: _ => []

/-- Buffer capacity of the reply channel created by `Execute`
(`make(chan vmExecResponse, 1)`). -/
def vmExecResponseChanCapacity : Nat := 1

/-- Buffer capacity of the reply channel created by `ParseToValue`
(`make(chan vmParseResponse, 1)`). -/
def vmParseResponseChanCapacity : Nat := 1

/-- Which case a Go `select` with one communication case and one
`<-ctx.Done()` case ends up taking.  Go chooses uniformly at random among
the ready cases, so when both are ready either branch may be taken. -/
inductive SelectBranch where
  | comm
  | ctxDone
  deriving DecidableEq

/-- Admissibility of the branch taken by such a `select`: the
communication case can only be taken if its partner is ready, and the
`<-ctx.Done()` case only if the context is done. -/
def selectValid (ctxDoneReady commReady : Bool) (b : SelectBranch) : Prop :=
  (b = .comm → commReady = true) ∧ (b = .ctxDone → ctxDoneReady = true)

/-- Everything observable about one `Execute` call: the four return
values, and what happened on the worker/reply-channel side. -/
structure ExecCallOutcome where
  evaluated : String
  stdout : String
  stderr : String
  err : Option GoError
  requestDelivered : Bool
  sourceRun : Bool
  responseProduced : Bool

/-- `Execute` from `janet.go`: create the buffered reply channel, then a
first `select` racing the request send against `ctx.Done()` (losing it
returns zero values and `ctx.Err()` with the request never delivered),
then a second `select` racing the reply receive against `ctx.Done()`
(losing it likewise returns zero values and `ctx.Err()`, while the
worker's response still lands in the buffered channel and is discarded).
`sendBranch` and `awaitBranch` are the branches the two selects resolve
to; `env` is the worker-side environment the request would meet. -/
def Execute (toStringB : JanetValue → String) (env : ExecEnv) (ctxErrMsg : String)
    (sendBranch awaitBranch : SelectBranch) : ExecCallOutcome :=
  match sendBranch with
  | .ctxDone =>
      { evaluated := "", stdout := "", stderr := "", err := some (.ctxError ctxErrMsg),
        requestDelivered := false, sourceRun := false, responseProduced := false }
  | .comm =>
      let tr := handleExecRequest toStringB env
      let resp := (execSends tr).headD { evaluated := "", stdout := "", stderr := "", err := none }
      match awaitBranch with
      | .ctxDone =>
          { evaluated := "", stdout := "", stderr := "", err := some (.ctxError ctxErrMsg),
            requestDelivered := true, sourceRun := ranEval tr,
            responseProduced := !(execSends tr).isEmpty }
      | .comm =>
          { evaluated := resp.evaluated, stdout := resp.stdout, stderr := resp.stderr,
            err := resp.err, requestDelivered := true, sourceRun := ranEval tr,
            responseProduced := !(execSends tr).isEmpty }

/-- Everything observable about one `ParseToValue` call. -/
structure ParseCallOutcome where
  value : GoValue
  err : Option GoError
  requestDelivered : Bool
  responseProduced : Bool

/-- `ParseToValue` from `janet.go`: same two-select protocol as `Execute`
over the parse channel, returning `(nil, ctx.Err())` when either select
resolves to the `ctx.Done()` branch.  When the handler panics it sends
nothing (`responseProduced = false`): a real caller's await can then only
resolve via `ctx.Done()` (or block forever), so the `.comm` await branch
is only admissible when a response was produced. -/
def ParseToValue (toStringB : JanetValue → String) (p : ParseEnv) (ctxErrMsg : String)
    (sendBranch awaitBranch : SelectBranch) : ParseCallOutcome :=
  match sendBranch with
  | .ctxDone =>
      { value := .gnull, err := some (.ctxError ctxErrMsg),
        requestDelivered := false, responseProduced := false }
  | .comm =>
      let tr := handleParseRequest toStringB p
      let resp := (parseSends tr).headD { value := .gnull, err := none }
      match awaitBranch with
      | .ctxDone =>
          { value := .gnull, err := some (.ctxError ctxErrMsg),
            requestDelivered := true, responseProduced := !(parseSends tr).isEmpty }
      | .comm =>
          { value := resp.value, err := resp.err,
            requestDelivered := true, responseProduced := !(parseSends tr).isEmpty }

/-- A live VM instance: its interpreter's identity (which `janet_init`
created it) and whether its worker goroutine has exited. -/
structure VMModel where
  id : Nat
  workerExited : Bool
  deriving DecidableEq

/-- The process-wide state `janet.go` keeps: the `_sharedVM` package
variable, plus a count of `janet_init` calls (interpreters ever created)
to make "no new interpreter is created" observable. -/
structure World where
  sharedVM : Option VMModel
  janetInitCount : Nat
  deriving DecidableEq

/-- `SharedVM` from `janet.go`: if `_sharedVM` is non-nil return it
unchanged; otherwise start the worker, which calls `janet_init` and
builds the core environment (`initOk` is whether that construction
succeeds), and on success store and return the fresh instance — on
failure return the error and leave `_sharedVM` nil. -/
def SharedVM (w : World) (initOk : Bool) : World × Option VMModel :=
  match w.sharedVM with
  | some vm => (w, some vm)
  | none =>
      if initOk then
        let vm : VMModel := { id := w.janetInitCount, workerExited := false }
        ({ sharedVM := some vm, janetInitCount := w.janetInitCount + 1 }, some vm)
      else
        ({ sharedVM := none, janetInitCount := w.janetInitCount + 1 }, none)

/-- `Close` from `janet.go`: if `_sharedVM` is non-nil, close the
shutdown channel, block on `wg.Wait()` until the worker goroutine has
fully exited (so `workerExited` holds on return), and set `_sharedVM` to
nil; if `_sharedVM` is already nil, do nothing. -/
def Close (w : World) (vm : VMModel) : World × VMModel :=
  match w.sharedVM with
  | some _ =>
      ({ sharedVM := none, janetInitCount := w.janetInitCount },
       { vm with workerExited := true })
  | none => (w, vm)

/-! Concrete instantiations used by witnesses: a constant stand-in for the
runtime stringifier, and sample worker environments. -/

/-- A concrete stand-in for the runtime's `janet_to_string_b` used to
instantiate theorems at closed inputs (the wrapper treats the stringifier
as a black box). -/
def constStringB : JanetValue → String := fun _ => "<stringified>"

/-- A sample worker environment in which both pipes open and the
evaluation of `(+ 1 2 3)` succeeds with the number 6. -/
def sampleOkEnv : ExecEnv :=
  { expression := "(+ 1 2 3)", stdoutPipe := some (3, 4), stderrPipe := some (5, 6),
    signal := JANET_SIGNAL_OK, result := .number 6, capturedOut := "", capturedErr := "" }

/-- A sample worker environment in which both pipes open and the
evaluation of `(error "intentional")` fails with signal 2
(`JANET_SIGNAL_ERROR`), leaving the error value in the result slot and
the error banner on captured stderr. -/
def sampleErrEnv : ExecEnv :=
  { expression := "(error \x22intentional\x22)", stdoutPipe := some (3, 4),
    stderrPipe := some (5, 6), signal := 2, result := .string "intentional",
    capturedOut := "", capturedErr := "error: intentional\n  in thunk pc=1\n" }

/-- A sample parse environment whose evaluation fails with signal 2. -/
def sampleErrParseEnv : ParseEnv :=
  { expression := "(no-such-func)", signal := 2, result := .string "unknown symbol no-such-func" }

/-- A sample parse environment whose evaluation succeeds with a string. -/
def sampleOkParseEnv : ParseEnv :=
  { expression := "\x22hello, world!\x22", signal := JANET_SIGNAL_OK,
    result := .string "hello, world!" }

/-- A sample parse environment for `@{[1 2] 3}`: the evaluation succeeds
with a table whose single key is the tuple `[1 2]`, which converts to a
`[]any` — an unhashable Go map key. -/
def badKeyParseEnv : ParseEnv :=
  { expression := "@\x7b[1 2] 3\x7d", signal := JANET_SIGNAL_OK,
    result := .table [(.tuple [.number 1, .number 2], .number 3)] }

/-- C9 counterexample: the claim — the worker sends exactly one Response
on every handling path and always returns to its serving loop — is false
at the parse of `@{[1 2] 3}`: the tuple key converts to a `[]any`, so the
Go map assignment panics ("hash of unhashable type"); the handler sends
zero responses and the unwound goroutine never serves the next queued
request. -/
theorem unhashable_key_panics_worker :
    parseJanetValueToGo constStringB
        (.table [(.tuple [.number 1, .number 2], .number 3)]) = none ∧
    handleParseRequest constStringB badKeyParseEnv = [.panicked] ∧
    (parseSends (handleParseRequest constStringB badKeyParseEnv)).length = 0 ∧
    workerLoop constStringB [.parseReq badKeyParseEnv, .execReq sampleOkEnv] =
      [.parseTrace [.panicked]] := by
  refine ⟨?_, ?_, ?_, ?_⟩ <;>
    simp [workerLoop, handleParseRequest, parseSends, parsePanicked, badKeyParseEnv,
      parseJanetValueToGo, parseGoList, parseGoSlots, mapInsert, mapReplace,
      hashableGoKey, gbeq, isJanetNil, JANET_SIGNAL_OK]

/-- C9 (amended): the reply channels of `Execute` and `ParseToValue` are
created with buffer capacity one; the worker sends exactly one response
on every execution handling path and on every parse handling path that
completes — a failing signal or a conversion that succeeds — so those
sends never exceed the buffer and cannot block; but a parse whose
conversion hits an unhashable map key panics the goroutine: no response
is sent and the worker never returns to its serving loop. -/
theorem worker_sends_exactly_one_response (t : JanetValue → String)
    (env : ExecEnv) (p : ParseEnv) (rest : List WorkerEvent) :
    (execSends (handleExecRequest t env)).length = 1 ∧
    vmExecResponseChanCapacity = 1 ∧
    vmParseResponseChanCapacity = 1 ∧
    (execSends (handleExecRequest t env)).length ≤ vmExecResponseChanCapacity ∧
    (p.signal ≠ JANET_SIGNAL_OK →
      (parseSends (handleParseRequest t p)).length = 1 ∧
      (parseSends (handleParseRequest t p)).length ≤ vmParseResponseChanCapacity) ∧
    (∀ g, parseJanetValueToGo t p.result = some g →
      (parseSends (handleParseRequest t p)).length = 1 ∧
      (parseSends (handleParseRequest t p)).length ≤ vmParseResponseChanCapacity) ∧
    (p.signal = JANET_SIGNAL_OK → parseJanetValueToGo t p.result = none →
      parseSends (handleParseRequest t p) = [] ∧
      parsePanicked (handleParseRequest t p) = true ∧
      workerLoop t (.parseReq p :: rest) = [.parseTrace (handleParseRequest t p)]) := by
  have hexec : (execSends (handleExecRequest t env)).length = 1 := by
    rcases h1 : env.stdoutPipe with _ | ⟨r1, w1⟩
    · simp [handleExecRequest, h1, execSends]
    · rcases h2 : env.stderrPipe with _ | ⟨r2, w2⟩
      · simp [handleExecRequest, h1, h2, execSends]
      · by_cases hs : env.signal = JANET_SIGNAL_OK <;>
          simp [handleExecRequest, h1, h2, hs, execSends]
  refine ⟨hexec, rfl, rfl, by rw [hexec]; decide, ?_, ?_, ?_⟩
  · intro hs
    simp [handleParseRequest, hs, parseSends, vmParseResponseChanCapacity]
  · intro g hg
    by_cases hs : p.signal = JANET_SIGNAL_OK <;>
      simp [handleParseRequest, hs, hg, parseSends, vmParseResponseChanCapacity]
  · intro hs hnone
    simp [workerLoop, handleParseRequest, hs, hnone, parseSends, parsePanicked]

/-- C9 amended-claim witness: the theorem applied at a failing-signal
parse, a successful string parse, and the panicking `@{[1 2] 3}` parse. -/
theorem worker_sends_exactly_one_response_witness :
    (parseSends (handleParseRequest constStringB sampleErrParseEnv)).length = 1 ∧
    (parseSends (handleParseRequest constStringB sampleOkParseEnv)).length = 1 ∧
    parseSends (handleParseRequest constStringB badKeyParseEnv) = [] ∧
    workerLoop constStringB [.parseReq badKeyParseEnv, .execReq sampleOkEnv] =
      [.parseTrace (handleParseRequest constStringB badKeyParseEnv)] :=
  ⟨((worker_sends_exactly_one_response constStringB sampleOkEnv sampleErrParseEnv
      []).2.2.2.2.1 (by decide)).1,
   ((worker_sends_exactly_one_response constStringB sampleOkEnv sampleOkParseEnv
      []).2.2.2.2.2.1 (.gstring "hello, world!")
      (by simp [sampleOkParseEnv, parseJanetValueToGo])).1,
   ((worker_sends_exactly_one_response constStringB sampleOkEnv badKeyParseEnv
      [.execReq sampleOkEnv]).2.2.2.2.2.2 rfl
      (by simp [badKeyParseEnv, parseJanetValueToGo, parseGoList, parseGoSlots,
        mapInsert, mapReplace, hashableGoKey, isJanetNil, JANET_SIGNAL_OK])).1,
   ((worker_sends_exactly_one_response constStringB sampleOkEnv badKeyParseEnv
      [.execReq sampleOkEnv]).2.2.2.2.2.2 rfl
      (by simp [badKeyParseEnv, parseJanetValueToGo, parseGoList, parseGoSlots,
        mapInsert, mapReplace, hashableGoKey, isJanetNil, JANET_SIGNAL_OK])).2.2⟩

/-- C10: on a non-OK completion signal, the execution response the worker
sends has an empty evaluated-text field, and the parse response it sends
has a nil (`gnull`) value: the result fields stay at their Go zero values
on the error branch. -/
theorem error_branch_leaves_result_fields_zero (t : JanetValue → String)
    (env : ExecEnv) (p : ParseEnv)
    (he : env.signal ≠ JANET_SIGNAL_OK) (hp : p.signal ≠ JANET_SIGNAL_OK) :
    (∀ r ∈ execSends (handleExecRequest t env), r.evaluated = "" ∧ r.err ≠ none) ∧
    (∀ r ∈ parseSends (handleParseRequest t p), r.value = .gnull ∧ r.err ≠ none) := by
  constructor
  · intro r hr
    rcases h1 : env.stdoutPipe with _ | ⟨r1, w1⟩
    · simp [handleExecRequest, h1, execSends] at hr
      simp [hr]
    · rcases h2 : env.stderrPipe with _ | ⟨r2, w2⟩
      · simp [handleExecRequest, h1, h2, execSends] at hr
        simp [hr]
      · simp [handleExecRequest, h1, h2, he, execSends] at hr
        simp [hr]
  · intro r hr
    simp [handleParseRequest, hp, parseSends] at hr
    simp [hr]

/-- C10 witness: the theorem applied at `sampleErrEnv` and
`sampleErrParseEnv`, whose signals are 2 ≠ 0. -/
theorem error_branch_leaves_result_fields_zero_witness :
    sampleErrEnv.signal ≠ JANET_SIGNAL_OK ∧
    (∀ r ∈ execSends (handleExecRequest constStringB sampleErrEnv),
      r.evaluated = "" ∧ r.err ≠ none) ∧
    (∀ r ∈ parseSends (handleParseRequest constStringB sampleErrParseEnv),
      r.value = .gnull ∧ r.err ≠ none) :=
  ⟨by decide,
   (error_branch_leaves_result_fields_zero constStringB sampleErrEnv sampleErrParseEnv
      (by decide) (by decide)).1,
   (error_branch_leaves_result_fields_zero constStringB sampleErrEnv sampleErrParseEnv
      (by decide) (by decide)).2⟩

/-- C2: when an evaluation completes with a non-OK signal (and the pipes
opened), the worker sends exactly one response, carrying the runtime's
own rendering of the error value as the error and the output captured
before the failure, and the serving loop then goes on to handle the rest
of its requests. -/
theorem evaluation_error_response_and_loop_continues (t : JanetValue → String)
    (env : ExecEnv) (r1 w1 r2 w2 : Nat) (rest : List WorkerEvent)
    (h1 : env.stdoutPipe = some (r1, w1)) (h2 : env.stderrPipe = some (r2, w2))
    (hs : env.signal ≠ JANET_SIGNAL_OK) :
    execSends (handleExecRequest t env) =
      [{ evaluated := "", stdout := env.capturedOut, stderr := env.capturedErr,
         err := some (.newError (t env.result)) }] ∧
    workerLoop t (.execReq env :: rest) =
      .execTrace (handleExecRequest t env) :: workerLoop t rest := by
  constructor
  · simp [handleExecRequest, h1, h2, hs, execSends]
  · rfl

/-- C2 witness: the theorem applied at `sampleErrEnv` followed by one more
request, showing the error response and that the loop output continues
with the later request's trace. -/
theorem evaluation_error_response_and_loop_continues_witness :
    sampleErrEnv.stdoutPipe = some (3, 4) ∧
    sampleErrEnv.stderrPipe = some (5, 6) ∧
    sampleErrEnv.signal ≠ JANET_SIGNAL_OK ∧
    (execSends (handleExecRequest constStringB sampleErrEnv) =
      [{ evaluated := "", stdout := sampleErrEnv.capturedOut,
         stderr := sampleErrEnv.capturedErr,
         err := some (.newError (constStringB sampleErrEnv.result)) }] ∧
     workerLoop constStringB (.execReq sampleErrEnv :: [.execReq sampleOkEnv]) =
       .execTrace (handleExecRequest constStringB sampleErrEnv) ::
         workerLoop constStringB [.execReq sampleOkEnv]) :=
  ⟨rfl, rfl, by decide,
   evaluation_error_response_and_loop_continues constStringB sampleErrEnv 3 4 5 6
     [.execReq sampleOkEnv] rfl rfl (by decide)⟩

/-- C6: if the stdout pipe cannot be created, the worker sends a response
carrying only that error (all other fields at their zero values), runs no
evaluation and touches no descriptor; if the stdout pipe opens but the
stderr pipe cannot be created, both descriptors of the stdout pipe are
closed before the error response is sent, no evaluation runs, and every
opened descriptor is closed. -/
theorem pipe_creation_failure_aborts_without_leak (t : JanetValue → String)
    (env : ExecEnv) :
    (env.stdoutPipe = none →
      handleExecRequest t env =
        [.send { evaluated := "", stdout := "", stderr := "",
                 err := some (.newError "failed to create stdout pipe") }] ∧
      ranEval (handleExecRequest t env) = false ∧
      fdOpens (handleExecRequest t env) = [] ∧
      fdCloses (handleExecRequest t env) = []) ∧
    (∀ r1 w1, env.stdoutPipe = some (r1, w1) → env.stderrPipe = none →
      handleExecRequest t env =
        [.openFd r1, .openFd w1, .closeFd r1, .closeFd w1,
         .send { evaluated := "", stdout := "", stderr := "",
                 err := some (.newError "failed to create stderr pipe") }] ∧
      ranEval (handleExecRequest t env) = false ∧
      fdCloses (eventsBeforeSend (handleExecRequest t env)) = [r1, w1] ∧
      fdOpens (handleExecRequest t env) = [r1, w1] ∧
      fdCloses (handleExecRequest t env) = [r1, w1]) := by
  constructor
  · intro h1
    refine ⟨by simp [handleExecRequest, h1], ?_, ?_, ?_⟩ <;>
      simp [handleExecRequest, h1, ranEval, fdOpens, fdCloses]
  · intro r1 w1 h1 h2
    refine ⟨by simp [handleExecRequest, h1, h2], ?_, ?_, ?_, ?_⟩ <;>
      simp [handleExecRequest, h1, h2, ranEval, fdOpens, fdCloses, eventsBeforeSend,
        List.takeWhile]

/-- C6 witness: the theorem applied to an environment whose stdout pipe
fails, and to one whose stdout pipe opens as (3, 4) while the stderr pipe
fails. -/
theorem pipe_creation_failure_aborts_without_leak_witness :
    (ranEval (handleExecRequest constStringB
        { sampleOkEnv with stdoutPipe := none }) = false ∧
      fdOpens (handleExecRequest constStringB
        { sampleOkEnv with stdoutPipe := none }) = []) ∧
    (fdCloses (eventsBeforeSend (handleExecRequest constStringB
        { sampleOkEnv with stderrPipe := none })) = [3, 4] ∧
      ranEval (handleExecRequest constStringB
        { sampleOkEnv with stderrPipe := none }) = false) := by
  have h1 := (pipe_creation_failure_aborts_without_leak constStringB
    { sampleOkEnv with stdoutPipe := none }).1 rfl
  have h2 := (pipe_creation_failure_aborts_without_leak constStringB
    { sampleOkEnv with stderrPipe := none }).2 3 4 rfl rfl
  exact ⟨⟨h1.2.1, h1.2.2.1⟩, ⟨h2.2.2.1, h2.2.1⟩⟩

/-- A prepended prefix distributes over the accumulator of
`String.intercalate.go`. -/
theorem intercalate_go_append (s x : String) :
    ∀ (l : List String) (y : String),
      String.intercalate.go (x ++ y) s l = x ++ String.intercalate.go y s l
  | [], _ => rfl
  | a :: as, y => by
      have ih := intercalate_go_append s x as (y ++ s ++ a)
      simp only [String.intercalate.go]
      simpa [String.append_assoc] using ih

/-- `String.intercalate` on a list of at least two strings peels off the
head and one separator. -/
theorem intercalate_cons_cons (s a b : String) (l : List String) :
    String.intercalate s (a :: b :: l) = a ++ s ++ String.intercalate s (b :: l) := by
  show String.intercalate.go a s (b :: l) = a ++ s ++ String.intercalate.go b s l
  rw [String.intercalate.go, ← intercalate_go_append s (a ++ s) l b]

/-- The tuple loop of `janetValueToString` (append each element's
rendering, then a space unless it is the last element) produces exactly
the single-space `String.intercalate` of the element renderings. -/
theorem renderTupleElems_eq_intercalate (t : JanetValue → String) :
    ∀ xs : List JanetValue,
      renderTupleElems t xs = String.intercalate " " (xs.map (janetValueToString t))
  | [] => by simp [renderTupleElems, String.intercalate]
  | [x] => by simp [renderTupleElems, String.intercalate, String.intercalate.go]
  | x :: y :: xs => by
      have ih := renderTupleElems_eq_intercalate t (y :: xs)
      simp only [renderTupleElems, List.map_cons]
      rw [intercalate_cons_cons, ih]
      simp only [List.map_cons]

/-- A concrete stand-in for the runtime stringifier that renders the
small integral numbers of the spec's example the way the Janet runtime
does. -/
def numStringB : JanetValue → String
  | .number n =>
      if n = 1 then "1" else if n = 2 then "2" else if n = 3 then "3"
      else if n = 4 then "4" else if n = 5 then "5" else "?"
  | _ => "?"

/-- C4 (amended): a tuple renders as the parenthesized, single-space
`String.intercalate` of its recursively rendered elements — in
particular the spec's example `(1 2 (3 4) 5)` — while an array is not
matched by the tuple case and falls back to the runtime's own generic
stringifier. -/
theorem tuple_rendering_parenthesized (t : JanetValue → String)
    (xs ys : List JanetValue) :
    janetValueToString t (.tuple xs) =
      "(" ++ String.intercalate " " (xs.map (janetValueToString t)) ++ ")" ∧
    janetValueToString t (.array ys) = t (.array ys) ∧
    janetValueToString numStringB
        (.tuple [.number 1, .number 2, .tuple [.number 3, .number 4], .number 5]) =
      "(1 2 (3 4) 5)" := by
  refine ⟨?_, by simp [janetValueToString], ?_⟩
  · rw [janetValueToString, renderTupleElems_eq_intercalate]
  · simp [janetValueToString, renderTupleElems, numStringB]

/-- C4 counterexample: the claim as stated — that arrays, like tuples,
render parenthesized — is false: for an array the code returns whatever
the generic stringifier returns, here `<stringified>` rather than the
parenthesized `(nil)`. -/
theorem array_rendering_falls_back :
    janetValueToString constStringB (.array [.jnil]) = "<stringified>" ∧
    janetValueToString constStringB (.array [.jnil]) ≠
      "(" ++ String.intercalate " "
        (([JanetValue.jnil]).map (janetValueToString constStringB)) ++ ")" := by
  constructor
  · simp [janetValueToString, constStringB]
  · simp [janetValueToString, constStringB, String.intercalate, String.intercalate.go]

/-- C1: primitive values convert exactly (string, number, nil, boolean),
but the keys of the mapping parsed from `@{:a 1 :b 2}` — the repository's
own `TestParseJanetString` input — come out as `":a"`, `":b"`: the
keyword branch prepends a colon, it does not strip punctuation, so the
test's expected keys `"a"`, `"b"` do not match what the code builds. -/
theorem parse_keyword_map_keys_keep_colon :
    (ParseToValue constStringB
        { expression := "@\x7b:a 1 :b 2\x7d", signal := JANET_SIGNAL_OK,
          result := .table [(.keyword "a", .number 1), (.keyword "b", .number 2)] }
        "ctx" .comm .comm).value =
      .gmap [(.gstring ":a", .gnumber 1), (.gstring ":b", .gnumber 2)] ∧
    parseJanetValueToGo constStringB .jnil = some .gnull ∧
    parseJanetValueToGo constStringB (.string "hello, world!") =
      some (.gstring "hello, world!") ∧
    parseJanetValueToGo constStringB (.number 123) = some (.gnumber 123) ∧
    parseJanetValueToGo constStringB (.boolean true) = some (.gbool true) ∧
    parseJanetValueToGo constStringB (.boolean false) = some (.gbool false) ∧
    (":a" : String) ≠ "a" ∧ (":b" : String) ≠ "b" := by
  refine ⟨?_, ?_, ?_, ?_, ?_, ?_, by decide, by decide⟩ <;>
    simp [ParseToValue, handleParseRequest, parseSends, parseJanetValueToGo,
      parseGoSlots, mapInsert, mapReplace, hashableGoKey, gbeq, isJanetNil,
      JANET_SIGNAL_OK]

/-- C5: the struct branch of `parseJanetValueToGo` walks only the first
`janet_struct_len` positions of the struct's open-addressed slot array,
so an entry stored past that point is silently dropped: a one-entry
struct whose entry sits in slot 1 (slot 0 empty) parses to an empty
mapping, while the same slot array seen as a table (whose branch walks
the whole array) parses to the expected one-entry mapping with the nil
slot skipped. -/
theorem parse_struct_misses_displaced_entry :
    janet_struct_len [((JanetValue.jnil), (JanetValue.jnil)),
      (JanetValue.keyword "a", JanetValue.number 1)] = 1 ∧
    (ParseToValue constStringB
        { expression := "\x7b:a 1\x7d", signal := JANET_SIGNAL_OK,
          result := .struct [(.jnil, .jnil), (.keyword "a", .number 1)] }
        "ctx" .comm .comm).value = .gmap [] ∧
    (ParseToValue constStringB
        { expression := "@\x7b:a 1\x7d", signal := JANET_SIGNAL_OK,
          result := .table [(.jnil, .jnil), (.keyword "a", .number 1)] }
        "ctx" .comm .comm).value = .gmap [(.gstring ":a", .gnumber 1)] := by
  refine ⟨?_, ?_, ?_⟩ <;>
    simp [ParseToValue, handleParseRequest, parseSends, parseJanetValueToGo,
      parseGoSlots, mapInsert, mapReplace, hashableGoKey, gbeq, isJanetNil,
      JANET_SIGNAL_OK, janet_struct_len, List.filter, List.take]

/-- C3: whenever the caller's context fires and takes either the send
select or the await select, `Execute` returns exactly the context's own
error identity with every other return value at its zero value, and
`ParseToValue` likewise returns a nil value with the context's error — a
cancelled call never carries partial evaluated text, stdout or stderr. -/
theorem cancelled_call_returns_only_ctx_error (t : JanetValue → String)
    (env : ExecEnv) (p : ParseEnv) (ctxE : String) (sb ab : SelectBranch)
    (h : sb = .ctxDone ∨ ab = .ctxDone) :
    (Execute t env ctxE sb ab).evaluated = "" ∧
    (Execute t env ctxE sb ab).stdout = "" ∧
    (Execute t env ctxE sb ab).stderr = "" ∧
    (Execute t env ctxE sb ab).err = some (.ctxError ctxE) ∧
    (ParseToValue t p ctxE sb ab).value = .gnull ∧
    (ParseToValue t p ctxE sb ab).err = some (.ctxError ctxE) := by
  cases sb <;> cases ab <;> simp_all [Execute, ParseToValue]

/-- C3 witness: the theorem applied with the context winning the send
select of a call that would otherwise have evaluated `(+ 1 2 3)`. -/
theorem cancelled_call_returns_only_ctx_error_witness :
    (Execute constStringB sampleOkEnv "context deadline exceeded"
        .ctxDone .comm).evaluated = "" ∧
    (Execute constStringB sampleOkEnv "context deadline exceeded"
        .ctxDone .comm).stdout = "" ∧
    (Execute constStringB sampleOkEnv "context deadline exceeded"
        .ctxDone .comm).stderr = "" ∧
    (Execute constStringB sampleOkEnv "context deadline exceeded"
        .ctxDone .comm).err = some (.ctxError "context deadline exceeded") ∧
    (ParseToValue constStringB sampleErrParseEnv "context deadline exceeded"
        .ctxDone .comm).value = .gnull ∧
    (ParseToValue constStringB sampleErrParseEnv "context deadline exceeded"
        .ctxDone .comm).err = some (.ctxError "context deadline exceeded") :=
  cancelled_call_returns_only_ctx_error constStringB sampleOkEnv sampleErrParseEnv
    "context deadline exceeded" .ctxDone .comm (Or.inl rfl)

/-- A world holding a live shared instance, for witnesses. -/
def wLive : World := { sharedVM := some { id := 0, workerExited := false }, janetInitCount := 1 }

/-- The instance `wLive` holds. -/
def vmLive : VMModel := { id := 0, workerExited := false }

/-- A world with no shared instance, for witnesses. -/
def wEmpty : World := { sharedVM := none, janetInitCount := 1 }

/-- C7: while a shared instance exists, `SharedVM` returns that same
instance with the world unchanged (in particular no new `janet_init`);
`Close` on an existing instance clears `_sharedVM` and returns only once
the worker has exited; `Close` when no shared instance exists is a no-op;
and after a `Close`, a further `SharedVM` call performs a fresh
`janet_init` and stores a fresh instance. -/
theorem shared_vm_singleton_lifecycle (w : World) (vm : VMModel) (ok : Bool)
    (hs : w.sharedVM = some vm) (w0 : World) (h0 : w0.sharedVM = none) (vm0 : VMModel) :
    SharedVM w ok = (w, some vm) ∧
    (Close w vm).1.sharedVM = none ∧
    (Close w vm).2.workerExited = true ∧
    Close w0 vm0 = (w0, vm0) ∧
    (SharedVM (Close w vm).1 true).1.janetInitCount = w.janetInitCount + 1 ∧
    (SharedVM (Close w vm).1 true).2 =
      some { id := w.janetInitCount, workerExited := false } := by
  refine ⟨?_, ?_, ?_, ?_, ?_, ?_⟩ <;> simp [SharedVM, Close, hs, h0]

/-- C7 witness: the theorem applied at a world holding a live instance
and a world holding none. -/
theorem shared_vm_singleton_lifecycle_witness :
    SharedVM wLive true = (wLive, some vmLive) ∧
    (Close wLive vmLive).1.sharedVM = none ∧
    (Close wLive vmLive).2.workerExited = true ∧
    Close wEmpty vmLive = (wEmpty, vmLive) ∧
    (SharedVM (Close wLive vmLive).1 true).1.janetInitCount = wLive.janetInitCount + 1 :=
  ⟨(shared_vm_singleton_lifecycle wLive vmLive true rfl wEmpty rfl vmLive).1,
   (shared_vm_singleton_lifecycle wLive vmLive true rfl wEmpty rfl vmLive).2.1,
   (shared_vm_singleton_lifecycle wLive vmLive true rfl wEmpty rfl vmLive).2.2.1,
   (shared_vm_singleton_lifecycle wLive vmLive true rfl wEmpty rfl vmLive).2.2.2.1,
   (shared_vm_singleton_lifecycle wLive vmLive true rfl wEmpty rfl vmLive).2.2.2.2.1⟩

/-- C8 counterexample: the claim — a call whose deadline has already
expired always returns a cancellation error and never produces a
Response — is false under Go's select semantics: with `ctx.Done()` ready
and the worker simultaneously ready to receive, `select` chooses
uniformly among ready cases, so both selects may resolve their
communication case (`selectValid true true .comm` holds); the call then
returns the successful evaluation with a nil error, the source text is
run, and a Response is produced on the reply channel. -/
theorem expired_deadline_may_still_deliver :
    selectValid true true SelectBranch.comm ∧
    (Execute constStringB sampleOkEnv "context deadline exceeded" .comm .comm).err = none ∧
    (Execute constStringB sampleOkEnv "context deadline exceeded" .comm .comm).sourceRun = true ∧
    (Execute constStringB sampleOkEnv "context deadline exceeded"
        .comm .comm).responseProduced = true ∧
    (Execute constStringB sampleOkEnv "context deadline exceeded" .comm .comm).evaluated =
      "<stringified>" := by
  refine ⟨by unfold selectValid; exact ⟨fun _ => rfl, fun h => nomatch h⟩, ?_, ?_, ?_, ?_⟩ <;>
    simp [Execute, handleExecRequest, sampleOkEnv, execSends, ranEval,
      JANET_SIGNAL_OK, janetValueToString, constStringB]

/-- C8 (amended): a call whose context is already done returns the
context's own error with zero values, never runs the source and never
produces a Response, whenever the request is not handed to the worker —
that is, whenever the send select resolves the `ctx.Done()` branch, which
is guaranteed when the worker is not ready to receive. -/
theorem expired_deadline_cancels_when_not_delivered (t : JanetValue → String)
    (env : ExecEnv) (ctxE : String) (sb ab : SelectBranch) (workerReady : Bool)
    (hv : selectValid true workerReady sb)
    (h : sb = .ctxDone ∨ workerReady = false) :
    (Execute t env ctxE sb ab).err = some (.ctxError ctxE) ∧
    (Execute t env ctxE sb ab).evaluated = "" ∧
    (Execute t env ctxE sb ab).requestDelivered = false ∧
    (Execute t env ctxE sb ab).sourceRun = false ∧
    (Execute t env ctxE sb ab).responseProduced = false := by
  have hsb : sb = .ctxDone := by
    rcases h with h | h
    · exact h
    · cases hb : sb
      · exact absurd (hv.1 hb) (by simp [h])
      · rfl
  subst hsb
  simp [Execute]

/-- C8 amended-claim witness: the theorem applied with a worker that is
not ready to receive, forcing the `ctx.Done()` branch. -/
theorem expired_deadline_cancels_when_not_delivered_witness :
    selectValid true false SelectBranch.ctxDone ∧
    (Execute constStringB sampleOkEnv "context deadline exceeded"
        .ctxDone .comm).err = some (.ctxError "context deadline exceeded") ∧
    (Execute constStringB sampleOkEnv "context deadline exceeded"
        .ctxDone .comm).responseProduced = false :=
  have hv : selectValid true false SelectBranch.ctxDone := by
    unfold selectValid
    exact ⟨(fun h => nomatch h), fun _ => rfl⟩
  ⟨hv,
   (expired_deadline_cancels_when_not_delivered constStringB sampleOkEnv
      "context deadline exceeded" .ctxDone .comm false hv (Or.inl rfl)).1,
   (expired_deadline_cancels_when_not_delivered constStringB sampleOkEnv
      "context deadline exceeded" .ctxDone .comm false hv (Or.inl rfl)).2.2.2.2⟩

end JanetGo
